import Mathlib

/-!
Verification of the question-answer validation and retry engine of
`src/1_quick_quiz/quick_quiz.py` against its specification.

Modelling conventions:
* Python `str` values that take part in answer normalization (answers, correct
  answers, option keys and labels) are lists of code points (`List Nat`);
  the ASCII case maps of CPython (`str.upper`, `str.lower`, `str.title`,
  `str.capitalize`, `str.swapcase`) are embedded as functions on code points.
  Display-only strings (question text, feedback message templates) stay `String`.
* Python exceptions are the `PyError` inductive; fallible code returns
  `Except PyError _`.  `input()` on exhausted stdin raises `EOFError`,
  modelled by `PyError.eofError`.
* The `while` loop of `handle_question_and_answer` has the guard
  `not is_valid_response and self.attempt_count < max_attempts`; since
  `attempt_count` grows by one per iteration, the loop runs at most
  `max_attempts - attempt_count` further iterations.  The loop is embedded
  with that exact bound as structural fuel (`qaGo`), which is extensionally
  the same loop and keeps every definition kernel-computable.
-/

/-- Python exceptions raised by `quick_quiz.py`, one constructor per raise
site (plus `eofError` for `input()` at end of stdin). -/
inductive PyError where
  /-- `ValueError(f"No correct answer provided for {self.question}")` -/
  | noCorrectAnswer (question : String)
  /-- `ValueError(f"No answer provided for {self.question}")` -/
  | noAnswer (question : String)
  /-- `ValueError("Correct answer is not available")` -/
  | correctAnswerNotAvailable
  /-- `ValueError(f"Invalid transformation: {transformation_name}")` -/
  | invalidTransformation (name : String)
  /-- `TypeError`, e.g. iterating over `None` -/
  | typeError
  /-- `EOFError` from `input()` when stdin is exhausted -/
  | eofError
deriving DecidableEq, Repr

/-- Code points of a Lean string literal; used to write concrete Python
strings in the model. -/
def S (s : String) : List Nat := s.data.map Char.toNat

/-- ASCII uppercase map on a code point (CPython `str.upper` per character). -/
def toUpperN (n : Nat) : Nat := if 97 ≤ n ∧ n ≤ 122 then n - 32 else n

/-- ASCII lowercase map on a code point (CPython `str.lower` per character). -/
def toLowerN (n : Nat) : Nat := if 65 ≤ n ∧ n ≤ 90 then n + 32 else n

/-- ASCII swapcase map on a code point (CPython `str.swapcase` per character). -/
def swapcaseN (n : Nat) : Nat :=
  if 65 ≤ n ∧ n ≤ 90 then n + 32
  else if 97 ≤ n ∧ n ≤ 122 then n - 32
  else n

/-- A code point is cased (an ASCII letter); CPython `str.title` uses this to
find word boundaries. -/
def isCasedN (n : Nat) : Prop := (65 ≤ n ∧ n ≤ 90) ∨ (97 ≤ n ∧ n ≤ 122)

instance (n : Nat) : Decidable (isCasedN n) := by
  unfold isCasedN
  exact inferInstance

/-- Worker of `str.title`: the flag records whether the previous character was
cased; a cased character after an uncased one is uppercased, after a cased one
lowercased. -/
def titleAux : Bool → List Nat → List Nat
  | _, [] => []
  | prev, c :: cs =>
    if isCasedN c then
      (if prev then toLowerN c else toUpperN c) :: titleAux true cs
    else
      c :: titleAux false cs

/-- CPython `str.title` on ASCII text. -/
def pyTitle (s : List Nat) : List Nat := titleAux false s

/-- CPython `str.upper` on ASCII text. -/
def pyUpper (s : List Nat) : List Nat := s.map toUpperN

/-- CPython `str.lower` on ASCII text. -/
def pyLower (s : List Nat) : List Nat := s.map toLowerN

/-- CPython `str.capitalize` on ASCII text: first character uppercased, the
rest lowercased. -/
def pyCapitalize : List Nat → List Nat
  | [] => []
  | c :: cs => toUpperN c :: cs.map toLowerN

/-- CPython `str.swapcase` on ASCII text. -/
def pySwapcase (s : List Nat) : List Nat := s.map swapcaseN

/-- The `transformations` dictionary of `QuizQuestion.set_transformation`
(quick_quiz.py lines 52-58). -/
def transformations (name : String) : Option (List Nat → List Nat) :=
  if name = "title" then some pyTitle
  else if name = "upper" then some pyUpper
  else if name = "lower" then some pyLower
  else if name = "capitalize" then some pyCapitalize
  else if name = "swapcase" then some pySwapcase
  else none

/-- `QuizQuestion.set_transformation` (lines 50-63): looks the name up in the
table and raises `ValueError(f"Invalid transformation: ...")` when absent.
On success it returns the selected transformation function. -/
def set_transformation (name : String) : Except PyError (List Nat → List Nat) :=
  match transformations name with
  | some f => Except.ok f
  | none => Except.error (PyError.invalidTransformation name)

/-- Apply the transformation selected by `set_transformation`.  Questions are
only constructed through `set_transformation`, which rejects unknown names, so
the identity fallback of this total function is unreachable on constructed
states. -/
def applyTransformation (name : String) (text : List Nat) : List Nat :=
  match transformations name with
  | some f => f text
  | none => text

/-- The `ResponseSettings` dataclass (lines 14-19) with its field defaults.
The `correct_reponse` misspelling is the source's. -/
structure ResponseSettings where
  correct_reponse : String := "Correct!"
  incorrect_response : String := "Incorrect."
  max_attempts : Int := 1
  correct_points : Int := 1
deriving DecidableEq, Repr

/-- The mutable state of a `QuizQuestion` / `MultipleChoiceQuizQuestion`
instance.  `isMC = true` marks a `MultipleChoiceQuizQuestion` (whose `options`
field exists and whose `prompt_question` / `validate_response` overrides are
used); a base `QuizQuestion` has `isMC = false` and no `options` attribute,
modeled as `options = none`.  The stored `transformation` function of the
source always equals `transformations transformation_name` because both are
set together by `set_transformation`, so the model stores only the name. -/
structure QState where
  question : String
  correct_answer : List Nat
  answer : Option (List Nat) := none
  transformation_name : String := "title"
  response_settings : ResponseSettings := {}
  options : Option (List (List Nat × List Nat)) := none
  isMC : Bool := false
  attempt_count : Int := 0
deriving DecidableEq, Repr

/-- `QuizQuestion.transform` (lines 65-67). -/
def QState.transform (q : QState) (text : List Nat) : List Nat :=
  applyTransformation q.transformation_name text

/-- Python truthiness of an optional string or list: `None` and empty are
falsy. -/
def optFalsy : Option (List α) → Bool
  | none => true
  | some l => l.isEmpty

/-- Iterating a Python value of type `Optional[list]`: iterating `None`
raises `TypeError`. -/
def pyIterOptions : Option (List (List Nat × List Nat)) →
    Except PyError (List (List Nat × List Nat))
  | none => Except.error PyError.typeError
  | some l => Except.ok l

/-- `QuizQuestion.__post_init__` via the dataclass constructor (lines 22-34):
selects the transformation (raising on an unknown name), zeroes the attempt
counter and clears the answer. -/
def mkQuizQuestion (question : String) (correct_answer : List Nat)
    (tname : String := "title") (rs : ResponseSettings := {}) :
    Except PyError QState :=
  match set_transformation tname with
  | Except.error e => Except.error e
  | Except.ok _ =>
    Except.ok { question := question, correct_answer := correct_answer,
                answer := none, transformation_name := tname,
                response_settings := rs, options := none, isMC := false,
                attempt_count := 0 }

/-- `MultipleChoiceQuizQuestion.__post_init__` via the dataclass constructor
(lines 103-109): overwrites `response_settings.max_attempts` with 3, then runs
the base `__post_init__`. -/
def mkMCQuestion (question : String) (correct_answer : List Nat)
    (tname : String := "title") (rs : ResponseSettings := {})
    (options : Option (List (List Nat × List Nat)) := none) :
    Except PyError QState :=
  match set_transformation tname with
  | Except.error e => Except.error e
  | Except.ok _ =>
    Except.ok { question := question, correct_answer := correct_answer,
                answer := none, transformation_name := tname,
                response_settings := { rs with max_attempts := 3 },
                options := options, isMC := true, attempt_count := 0 }

/-- `MultipleChoiceQuizQuestion.add_option` (lines 115-118): a falsy `options`
(None or empty) is replaced by a fresh list before appending. -/
def add_option (q : QState) (opt : List Nat × List Nat) : QState :=
  match q.options with
  | none => { q with options := some [opt] }
  | some l => { q with options := some (l ++ [opt]) }

/-- `QuizQuestion.is_correct_answer` (lines 39-41): compares the transformed
answer with the transformed correct answer.  `transform(None)` would raise
`TypeError`, as the Python method does when no answer was ever captured. -/
def is_correct_answer (q : QState) : Except PyError Bool :=
  match q.answer with
  | none => Except.error PyError.typeError
  | some a =>
    Except.ok (decide (q.transform a = q.transform q.correct_answer))

/-- `QuizQuestion.validate_response` (lines 69-74): raises on an empty correct
answer or an empty captured answer, otherwise returns `True`. -/
def validateBase (q : QState) : Except PyError Bool :=
  if q.correct_answer.isEmpty then Except.error (PyError.noCorrectAnswer q.question)
  else if optFalsy q.answer then Except.error (PyError.noAnswer q.question)
  else Except.ok true

/-- `MultipleChoiceQuizQuestion.valid_possible_answers` (lines 111-113):
transforms each option key; iterating `options = None` raises `TypeError`. -/
def valid_possible_answers (q : QState) : Except PyError (List (List Nat)) :=
  match pyIterOptions q.options with
  | Except.error e => Except.error e
  | Except.ok opts => Except.ok (opts.map (fun o => q.transform o.1))

/-- The pieces interpolated into the invalid-choice feedback f-string of
`MultipleChoiceQuizQuestion.validate_response` (lines 138-140):
`'{answer}' is not a valid answer. Expecting one of the following:
{validKeys}. {attemptsRemaining} attempts remaining.` -/
structure InvalidChoiceFeedback where
  answer : List Nat
  validKeys : List (List Nat)
  attemptsRemaining : Int
deriving DecidableEq, Repr

/-- `MultipleChoiceQuizQuestion.validate_response` (lines 128-142).  Returns
the boolean validity together with the feedback printed on the invalid-choice
path.  Note that line 135 compares the raw `self.correct_answer` against the
transformed option keys. -/
def validateMC (q : QState) : Except PyError (Bool × Option InvalidChoiceFeedback) :=
  if q.correct_answer.isEmpty then Except.error (PyError.noCorrectAnswer q.question)
  else if optFalsy q.answer then Except.error (PyError.noAnswer q.question)
  else
    match (if optFalsy q.options then (validateBase q).map (fun _ => ()) else Except.ok ()) with
    | Except.error e => Except.error e
    | Except.ok _ =>
      match valid_possible_answers q with
      | Except.error e => Except.error e
      | Except.ok keys =>
        if q.correct_answer ∉ keys then
          Except.error PyError.correctAnswerNotAvailable
        else if q.transform (q.answer.getD []) ∉ keys then
          let fb : InvalidChoiceFeedback :=
            { answer := q.answer.getD []
              validKeys := keys
              attemptsRemaining := q.response_settings.max_attempts - q.attempt_count }
          Except.ok (false, some fb)
        else
          Except.ok (true, none)

/-- Dynamic dispatch of `self.validate_response()`. -/
def validateResponse (q : QState) : Except PyError (Bool × Option InvalidChoiceFeedback) :=
  if q.isMC then validateMC q else (validateBase q).map (fun b => (b, none))

/-- One `input(...)` call: consume the next line of stdin, raising `EOFError`
when none is left. -/
def promptBase (inputs : List (List Nat)) :
    Except PyError (List Nat × List (List Nat)) :=
  match inputs with
  | [] => Except.error PyError.eofError
  | i :: rest => Except.ok (i, rest)

/-- Dynamic dispatch of `self.prompt_question()` (lines 36-37 and 120-126):
returns the captured answer and the remaining stdin.
`MultipleChoiceQuizQuestion.prompt_question` first delegates to the base
prompt when `options` is falsy, then builds the option listing — iterating
`options = None` raises `TypeError` — and finally reads its own input, which
overwrites the answer captured by the delegated base prompt. -/
def promptAnswer (q : QState) (inputs : List (List Nat)) :
    Except PyError (List Nat × List (List Nat)) :=
  if q.isMC then
    match (if optFalsy q.options then promptBase inputs
           else Except.ok (q.answer.getD [], inputs)) with
    | Except.error e => Except.error e
    | Except.ok (_, inputs1) =>
      match pyIterOptions q.options with
      | Except.error e => Except.error e
      | Except.ok _ => promptBase inputs1
  else promptBase inputs

/-- `QuizQuestion.print_question_header` (lines 76-81): on the first attempt,
a truthy question number is spliced into the question text. -/
def print_question_header (q : QState) (question_number : Option Int) : QState :=
  if q.attempt_count = 0 then
    match question_number with
    | some n => if n = 0 then q else { q with question := toString n ++ ". " ++ q.question }
    | none => q
  else q

/-- The `while not is_valid_response and self.attempt_count < max_attempts`
loop of `handle_question_and_answer` (lines 89-92), with the bound
`max_attempts - attempt_count` on the remaining iterations made explicit as
structural fuel.  Accumulates the invalid-choice feedback printed along the
way and threads the remaining stdin. -/
def qaGo : Nat → QState → Bool → List (List Nat) → List InvalidChoiceFeedback →
    Except PyError (QState × Bool × List (List Nat) × List InvalidChoiceFeedback)
  | 0, q, isValid, inputs, fb => Except.ok (q, isValid, inputs, fb)
  | fuel + 1, q, isValid, inputs, fb =>
    if isValid then Except.ok (q, isValid, inputs, fb)
    else
      match promptAnswer q inputs with
      | Except.error e => Except.error e
      | Except.ok (a, rest) =>
        let q2 : QState := { q with answer := some a, attempt_count := q.attempt_count + 1 }
        match validateResponse q2 with
        | Except.error e => Except.error e
        | Except.ok (v, f) => qaGo fuel q2 v rest (fb ++ f.toList)

/-- Everything `handle_question_and_answer` leaves behind when it returns
normally: the final question state, the last validation verdict, the
invalid-choice feedback printed, whether the attempts-exhausted notice was
printed, the final `is_correct_answer` evaluation (which chooses between the
correct and incorrect feedback messages), and the remaining stdin. -/
structure QAOutput where
  state : QState
  is_valid : Bool
  feedback : List InvalidChoiceFeedback
  exhausted_notice : Bool
  is_correct : Bool
  rest : List (List Nat)
deriving DecidableEq, Repr

/-- `QuizQuestion.handle_question_and_answer` (lines 83-100): header, first
prompt/increment/validate, the retry loop, the attempts-exhausted notice, and
the final correctness check.  A `ValueError` raised by `validate_response`
propagates out as an `Except.error`. -/
def handle_question_and_answer (q : QState) (inputs : List (List Nat))
    (question_number : Option Int := none) : Except PyError QAOutput :=
  let q0 := print_question_header q question_number
  match promptAnswer q0 inputs with
  | Except.error e => Except.error e
  | Except.ok (a, rest) =>
    let q1 : QState := { q0 with answer := some a, attempt_count := q0.attempt_count + 1 }
    match validateResponse q1 with
    | Except.error e => Except.error e
    | Except.ok (v0, f0) =>
      let maxA := q1.response_settings.max_attempts
      match qaGo (maxA - q1.attempt_count).toNat q1 v0 rest f0.toList with
      | Except.error e => Except.error e
      | Except.ok (qf, vf, restf, fbf) =>
        match is_correct_answer qf with
        | Except.error e => Except.error e
        | Except.ok c =>
          Except.ok { state := qf, is_valid := vf, feedback := fbf,
                      exhausted_notice := !vf && (qf.attempt_count == maxA),
                      is_correct := c, rest := restf }

/-- The `ResponseSettings` literal built inside `SimpleQuiz.startup`
(lines 153-158); note `max_attempts=2`. -/
def startupSettings : ResponseSettings :=
  { correct_reponse := "Great! Let\x27s play :)"
    incorrect_response := "Another time then! Goodbye :)"
    max_attempts := 2
    correct_points := 0 }

/-- The startup gate question as it exists after construction and the two
`add_option` calls in `SimpleQuiz.startup` (lines 159-163); its
`max_attempts` is 3 because `MultipleChoiceQuizQuestion.__post_init__`
overwrites the supplied 2. -/
def gateQuestion : QState :=
  { question := "Do you want to play?"
    correct_answer := S "Y"
    answer := none
    transformation_name := "title"
    response_settings := { correct_reponse := "Great! Let\x27s play :)"
                           incorrect_response := "Another time then! Goodbye :)"
                           max_attempts := 3
                           correct_points := 0 }
    options := some [(S "Y", S "Yes"), (S "N", S "No")]
    isMC := true
    attempt_count := 0 }

/-- `SimpleQuiz.startup` (lines 150-166): builds the gate question, runs it,
and returns `question.is_correct_answer`.  Also returns the remaining
stdin. -/
def startup (inputs : List (List Nat)) : Except PyError (Bool × List (List Nat)) :=
  match mkMCQuestion "Do you want to play?" (S "Y") "title" startupSettings none with
  | Except.error e => Except.error e
  | Except.ok q =>
    let q1 := add_option q (S "Y", S "Yes")
    let q2 := add_option q1 (S "N", S "No")
    match handle_question_and_answer q2 inputs none with
    | Except.error e => Except.error e
    | Except.ok r => Except.ok (r.is_correct, r.rest)

/-- `SimpleQuiz.get_list_of_questions` (lines 172-191). -/
def get_list_of_questions : Except PyError (List QState) :=
  match mkQuizQuestion "What does CPU stand for?" (S "Central Processing Unit") "title" {} with
  | Except.error e => Except.error e
  | Except.ok q1 =>
    match mkQuizQuestion "What does RAM stand for?" (S "Random Access Memory") "title" {} with
    | Except.error e => Except.error e
    | Except.ok q2 =>
      match mkQuizQuestion "What does GPU stand for?" (S "Graphics Processing Unit") "title" {} with
      | Except.error e => Except.error e
      | Except.ok q3 =>
        match mkMCQuestion "Which answer is A?" (S "A") "title" {}
            (some [(S "A", S "Answer A"), (S "B", S "Answer B")]) with
        | Except.error e => Except.error e
        | Except.ok q4 => Except.ok [q1, q2, q3, q4]

/-- The loop body of `SimpleQuiz.start_quiz` with `update_score`
(lines 193-200): run each question with its 1-based number and add
`correct_points` to the score when the final answer is correct. -/
def runQuestions : List QState → Int → Int → List (List Nat) →
    Except PyError (Int × List (List Nat))
  | [], score, _num, inputs => Except.ok (score, inputs)
  | q :: qs, score, num, inputs =>
    match handle_question_and_answer q inputs (some num) with
    | Except.error e => Except.error e
    | Except.ok r =>
      let score2 := if r.is_correct
        then score + r.state.response_settings.correct_points else score
      runQuestions qs score2 (num + 1) r.rest

/-- `SimpleQuiz.start_quiz` (lines 193-196) starting from score 0. -/
def start_quiz (inputs : List (List Nat)) : Except PyError (Int × List (List Nat)) :=
  match get_list_of_questions with
  | Except.error e => Except.error e
  | Except.ok qs => runQuestions qs 0 1 inputs

/-- What a run of `main` did: whether the startup gate accepted, whether
`start_quiz` ran, and the reported score together with the question count
used as the denominator of `display_score` (lines 202-210). -/
structure MainTrace where
  gate : Bool
  ranQuiz : Bool
  finalScore : Option (Int × Nat)
deriving DecidableEq, Repr

/-- `main` (lines 206-210): run the startup gate; only when it accepts, run
the quiz and display the score. -/
def quizMain (inputs : List (List Nat)) : Except PyError MainTrace :=
  match startup inputs with
  | Except.error e => Except.error e
  | Except.ok (playing, rest) =>
    if playing then
      match start_quiz rest with
      | Except.error e => Except.error e
      | Except.ok (score, _rest2) =>
        match get_list_of_questions with
        | Except.error e => Except.error e
        | Except.ok qs =>
          Except.ok { gate := true, ranQuiz := true, finalScore := some (score, qs.length) }
    else
      Except.ok { gate := false, ranQuiz := false, finalScore := none }

@[simp]
theorem toUpperN_toUpperN (n : Nat) : toUpperN (toUpperN n) = toUpperN n := by
  simp only [toUpperN]
  split_ifs <;> omega

@[simp]
theorem toLowerN_toLowerN (n : Nat) : toLowerN (toLowerN n) = toLowerN n := by
  simp only [toLowerN]
  split_ifs <;> omega

theorem isCasedN_toUpperN (n : Nat) : isCasedN (toUpperN n) ↔ isCasedN n := by
  simp only [isCasedN, toUpperN]
  split_ifs <;> omega

theorem isCasedN_toLowerN (n : Nat) : isCasedN (toLowerN n) ↔ isCasedN n := by
  simp only [isCasedN, toLowerN]
  split_ifs <;> omega

theorem titleAux_titleAux (l : List Nat) :
    ∀ prev, titleAux prev (titleAux prev l) = titleAux prev l := by
  induction l with
  | nil => intro prev; rfl
  | cons c cs ih =>
    intro prev
    by_cases hc : isCasedN c
    · cases prev with
      | false =>
        have hc2 : isCasedN (toUpperN c) := (isCasedN_toUpperN c).mpr hc
        simp [titleAux, hc, hc2, ih true]
      | true =>
        have hc2 : isCasedN (toLowerN c) := (isCasedN_toLowerN c).mpr hc
        simp [titleAux, hc, hc2, ih true]
    · simp [titleAux, hc, ih false]

theorem pyTitle_pyTitle (s : List Nat) : pyTitle (pyTitle s) = pyTitle s :=
  titleAux_titleAux s false

theorem pyUpper_pyUpper (s : List Nat) : pyUpper (pyUpper s) = pyUpper s := by
  simp [pyUpper, List.map_map, Function.comp_def]

theorem pyLower_pyLower (s : List Nat) : pyLower (pyLower s) = pyLower s := by
  simp [pyLower, List.map_map, Function.comp_def]

theorem pyCapitalize_pyCapitalize (s : List Nat) :
    pyCapitalize (pyCapitalize s) = pyCapitalize s := by
  cases s with
  | nil => rfl
  | cons c cs => simp [pyCapitalize, List.map_map, Function.comp_def]

@[simp]
theorem swapcaseN_swapcaseN (n : Nat) : swapcaseN (swapcaseN n) = n := by
  simp only [swapcaseN]
  split_ifs <;> omega

theorem pySwapcase_pySwapcase (s : List Nat) : pySwapcase (pySwapcase s) = s := by
  simp [pySwapcase, List.map_map, Function.comp_def]

/-- C2 counterexample: the claim "for every supported mode m, normalize is
idempotent" fails at mode `swapcase` on input `"a"`: swapcasing once gives
`"A"`, swapcasing twice gives back `"a"`. -/
theorem C2_cex_swapcase_not_idempotent :
    ¬ applyTransformation "swapcase" (applyTransformation "swapcase" (S "a")) =
        applyTransformation "swapcase" (S "a") := by
  decide

/-- C2 (amended): the normalizer is idempotent for the modes `title`, `upper`,
`lower` and `capitalize`; the fifth supported mode `swapcase` is instead an
involution (applying it twice restores the input), hence not idempotent on any
input containing a letter. -/
theorem C2_normalize_idempotent_except_swapcase :
    (∀ (m : String) (x : List Nat),
      m ∈ (["title", "upper", "lower", "capitalize"] : List String) →
      applyTransformation m (applyTransformation m x) = applyTransformation m x) ∧
    (∀ x : List Nat,
      applyTransformation "swapcase" (applyTransformation "swapcase" x) = x) := by
  constructor
  · intro m x hm
    simp only [List.mem_cons, List.mem_singleton, List.not_mem_nil, or_false] at hm
    rcases hm with rfl | rfl | rfl | rfl
    · simpa [applyTransformation, transformations] using pyTitle_pyTitle x
    · simpa [applyTransformation, transformations] using pyUpper_pyUpper x
    · simpa [applyTransformation, transformations] using pyLower_pyLower x
    · simpa [applyTransformation, transformations] using pyCapitalize_pyCapitalize x
  · intro x
    simpa [applyTransformation, transformations] using pySwapcase_pySwapcase x

/-- C2 witness: the amended idempotence at the concrete mode `upper` on the
concrete input `"abC"`, with the mode-membership hypothesis discharged by
computation. -/
theorem C2_witness :
    ("upper" ∈ (["title", "upper", "lower", "capitalize"] : List String)) ∧
    applyTransformation "upper" (applyTransformation "upper" (S "abC")) =
      applyTransformation "upper" (S "abC") :=
  ⟨by decide,
   C2_normalize_idempotent_except_swapcase.1 "upper" (S "abC") (by decide)⟩

/-- Whether an `Except` value is a success. -/
def isOkE : Except ε α → Bool
  | Except.ok _ => true
  | Except.error _ => false

/-- C9: selecting an unrecognized normalization mode fails with the
`Invalid transformation` `ValueError` at the point the mode is set — in
particular `Question` construction, whose `__post_init__` calls
`set_transformation`, fails the same way — while every recognized mode is
accepted.  (Applying an already-set transformation never raises: the raise
happens only at set time.) -/
theorem C9_unknown_mode_fails_at_set (name question : String)
    (correct : List Nat) (rs : ResponseSettings) :
    (name ∈ (["title", "upper", "lower", "capitalize", "swapcase"] : List String) →
      isOkE (set_transformation name) = true ∧
      isOkE (mkQuizQuestion question correct name rs) = true) ∧
    (name ∉ (["title", "upper", "lower", "capitalize", "swapcase"] : List String) →
      set_transformation name = Except.error (PyError.invalidTransformation name) ∧
      mkQuizQuestion question correct name rs =
        Except.error (PyError.invalidTransformation name)) := by
  constructor
  · intro hm
    simp only [List.mem_cons, List.not_mem_nil, or_false] at hm
    rcases hm with rfl | rfl | rfl | rfl | rfl <;> exact ⟨rfl, rfl⟩
  · intro hm
    simp only [List.mem_cons, List.not_mem_nil, or_false, not_or] at hm
    obtain ⟨h1, h2, h3, h4, h5⟩ := hm
    refine ⟨?_, ?_⟩
    · simp [set_transformation, transformations, h1, h2, h3, h4, h5]
    · simp [mkQuizQuestion, set_transformation, transformations, h1, h2, h3, h4, h5]

/-- C9 witness: the recognized mode `title` is accepted and the unrecognized
mode `bogus` makes construction fail with the configuration error. -/
theorem C9_witness :
    isOkE (set_transformation "title") = true ∧
    mkQuizQuestion "Q?" (S "X") "bogus" {} =
      Except.error (PyError.invalidTransformation "bogus") :=
  ⟨((C9_unknown_mode_fails_at_set "title" "Q?" (S "X") {}).1 (by decide)).1,
   ((C9_unknown_mode_fails_at_set "bogus" "Q?" (S "X") {}).2 (by decide)).2⟩

/-- C5: constructing a `MultipleChoiceQuizQuestion` always overwrites the
`max_attempts` of the supplied `ResponseSettings` with 3, leaving every other
field of the supplied settings unchanged. -/
theorem C5_mc_construction_forces_max_attempts_three (question : String)
    (correct : List Nat) (tname : String) (rs : ResponseSettings)
    (options : Option (List (List Nat × List Nat)))
    (h : (transformations tname).isSome = true) :
    (mkMCQuestion question correct tname rs options).map
        (fun st => st.response_settings) =
      Except.ok { rs with max_attempts := 3 } := by
  cases hm : transformations tname with
  | none => rw [hm] at h; simp at h
  | some f => simp [mkMCQuestion, set_transformation, hm, Except.map]

/-- C5 witness: the startup gate question is built with
`startupSettings.max_attempts = 2` but comes out with `max_attempts = 3`, its
other settings fields intact. -/
theorem C5_witness :
    startupSettings.max_attempts = 2 ∧
    (mkMCQuestion "Do you want to play?" (S "Y") "title" startupSettings none).map
        (fun st => st.response_settings) =
      Except.ok { startupSettings with max_attempts := 3 } :=
  ⟨rfl,
   C5_mc_construction_forces_max_attempts_three "Do you want to play?" (S "Y")
     "title" startupSettings none (by decide)⟩

/-- The bank question `MultipleChoiceQuizQuestion("Which answer is A?", "A",
options=[("A","Answer A"),("B","Answer B")])` (lines 186-190) right after
construction (`max_attempts` forced to 3 by `__post_init__`). -/
def whichAQuestion : QState :=
  { question := "Which answer is A?"
    correct_answer := S "A"
    answer := none
    transformation_name := "title"
    response_settings := { max_attempts := 3 }
    options := some [(S "A", S "Answer A"), (S "B", S "Answer B")]
    isMC := true
    attempt_count := 0 }

theorem whichAQuestion_from_constructor :
    mkMCQuestion "Which answer is A?" (S "A") "title" {}
        (some [(S "A", S "Answer A"), (S "B", S "Answer B")]) =
      Except.ok whichAQuestion := rfl

/-- C6: on the choice question with options A and B, correct answer `"A"` and
mode `title`, the input `"a"` normalizes to the option key `"A"`, passes
validation on attempt 1 with no invalid-choice feedback, and the correctness
check (the same transformation applied to both sides) evaluates to true. -/
theorem C6_lowercase_input_accepted_and_correct :
    applyTransformation "title" (S "a") = S "A" ∧
    (handle_question_and_answer whichAQuestion [S "a"] none).map
        (fun r => (r.is_valid, r.state.attempt_count, r.is_correct, r.feedback)) =
      Except.ok (true, 1, true, []) :=
  ⟨rfl, rfl⟩

/-- C3 counterexample: the claim "attemptCount == maxAttempts iff termination
was via exhaustion" fails on the run of `whichAQuestion` (maxAttempts 3) with
inputs `["C", "C", "a"]`: the third attempt is accepted as valid, so the run
terminates via acceptance with `attemptCount == maxAttempts == 3` and no
exhausted notice. -/
theorem C3_cex_full_count_via_acceptance :
    whichAQuestion.response_settings.max_attempts = 3 ∧
    (handle_question_and_answer whichAQuestion [S "C", S "C", S "a"] none).map
        (fun r => (r.is_valid, r.state.attempt_count, r.exhausted_notice)) =
      Except.ok (true, 3, false) :=
  ⟨rfl, rfl⟩

theorem isEmpty_false {α : Type} {l : List α} (h : l ≠ []) : l.isEmpty = false := by
  cases l with
  | nil => exact absurd rfl h
  | cons c cs => rfl

@[simp]
theorem print_question_header_isMC (q : QState) (n : Option Int) :
    (print_question_header q n).isMC = q.isMC := by
  unfold print_question_header
  split <;> (try split) <;> (try split) <;> rfl

@[simp]
theorem print_question_header_options (q : QState) (n : Option Int) :
    (print_question_header q n).options = q.options := by
  unfold print_question_header
  split <;> (try split) <;> (try split) <;> rfl

@[simp]
theorem print_question_header_answer (q : QState) (n : Option Int) :
    (print_question_header q n).answer = q.answer := by
  unfold print_question_header
  split <;> (try split) <;> (try split) <;> rfl

@[simp]
theorem print_question_header_attempt_count (q : QState) (n : Option Int) :
    (print_question_header q n).attempt_count = q.attempt_count := by
  unfold print_question_header
  split <;> (try split) <;> (try split) <;> rfl

@[simp]
theorem print_question_header_correct_answer (q : QState) (n : Option Int) :
    (print_question_header q n).correct_answer = q.correct_answer := by
  unfold print_question_header
  split <;> (try split) <;> (try split) <;> rfl

@[simp]
theorem print_question_header_transformation_name (q : QState) (n : Option Int) :
    (print_question_header q n).transformation_name = q.transformation_name := by
  unfold print_question_header
  split <;> (try split) <;> (try split) <;> rfl

@[simp]
theorem print_question_header_response_settings (q : QState) (n : Option Int) :
    (print_question_header q n).response_settings = q.response_settings := by
  unfold print_question_header
  split <;> (try split) <;> (try split) <;> rfl

theorem print_question_header_none (q : QState) :
    print_question_header q none = q := by
  unfold print_question_header
  split <;> rfl

/-- The CPU question of the bank, as the C1 scenario demands it: a base
`QuizQuestion` whose settings carry `max_attempts = 2`. -/
def cpuMax2Question : QState :=
  { question := "What does CPU stand for?"
    correct_answer := S "Central Processing Unit"
    answer := none
    transformation_name := "title"
    response_settings := { max_attempts := 2 }
    options := none
    isMC := false
    attempt_count := 0 }

/-- C1 counterexample: on a base question with `maxAttempts = 2`, the very
first empty input makes `validate_response` raise
`ValueError("No answer provided for ...")`, which propagates out of
`handle_question_and_answer`; the run never reaches an exhausted state with
`attemptCount == 2`. -/
theorem C1_cex_empty_input_escapes :
    handle_question_and_answer cpuMax2Question [S "", S ""] none =
      Except.error (PyError.noAnswer "What does CPU stand for?") := rfl

/-- C1 (amended): for a base `Question`, an empty user response is not a
recoverable in-loop validation failure: `validate_response` raises a
`ValueError` which propagates out of `handle_question_and_answer` at the
first empty response.  The retry path is never taken — the result does not
depend on any further queued inputs — so two empty inputs with
`maxAttempts = 2` end in this propagating error after the first attempt, not
in an exhausted state with `attemptCount == 2`. -/
theorem C1_empty_input_raises_from_base_validate (q : QState)
    (rest : List (List Nat)) (hmc : q.isMC = false) (hca : q.correct_answer ≠ []) :
    handle_question_and_answer q (S "" :: rest) none =
      Except.error (PyError.noAnswer q.question) := by
  simp [handle_question_and_answer, print_question_header_none, promptAnswer,
    hmc, promptBase, validateResponse, validateBase, isEmpty_false hca,
    optFalsy, S, Except.map]

/-- C1 witness: the amended behaviour at the concrete base question with
`maxAttempts = 2` and two consecutive empty inputs. -/
theorem C1_witness :
    cpuMax2Question.response_settings.max_attempts = 2 ∧
    handle_question_and_answer cpuMax2Question (S "" :: [S ""]) none =
      Except.error (PyError.noAnswer cpuMax2Question.question) :=
  ⟨rfl, C1_empty_input_raises_from_base_validate cpuMax2Question [S ""] rfl (by decide)⟩

/-- A `MultipleChoiceQuizQuestion` whose `options` was never supplied. -/
def bareChoiceQuestion : QState :=
  { question := "Pick one"
    correct_answer := S "A"
    answer := none
    transformation_name := "title"
    response_settings := { max_attempts := 3 }
    options := none
    isMC := true
    attempt_count := 0 }

/-- C10: for a `MultipleChoiceQuizQuestion` with `options = None`,
`prompt_question` does not fall back to plain base prompting: it delegates to
the base prompt (which consumes the next input — with no input queued the run
fails at that read with `EOFError`) and then still iterates `options` to
render them, so with an input available the call raises `TypeError` instead
of completing. -/
theorem C10_prompt_without_options_raises (q : QState) (i : List Nat)
    (rest : List (List Nat)) (qnum : Option Int)
    (hmc : q.isMC = true) (hopt : q.options = none) :
    handle_question_and_answer q (i :: rest) qnum = Except.error PyError.typeError ∧
    handle_question_and_answer q [] qnum = Except.error PyError.eofError := by
  constructor <;>
    simp [handle_question_and_answer, promptAnswer, hmc, hopt, promptBase,
      pyIterOptions, optFalsy]

/-- C10 witness: the concrete optionless choice question raises `TypeError`
when an input is available and `EOFError` when none is. -/
theorem C10_witness :
    handle_question_and_answer bareChoiceQuestion [S "A"] none =
      Except.error PyError.typeError ∧
    handle_question_and_answer bareChoiceQuestion [] none =
      Except.error PyError.eofError :=
  C10_prompt_without_options_raises bareChoiceQuestion (S "A") [] none rfl rfl

theorem optFalsy_some_false {a : List Nat} (h : a ≠ []) :
    optFalsy (some a) = false := isEmpty_false h

/-- C7: for a choice question whose captured answer is non-empty but, after
normalization, not among the normalized option keys (and whose raw correct
answer is among them, so the configuration check passes), `validate_response`
takes the ordinary invalid-input retry path: it returns `False` without
raising, printing feedback that lists exactly the normalized valid keys and a
remaining-attempts count equal to `max_attempts - attempt_count` at that
point. -/
theorem C7_invalid_choice_takes_retry_path (q : QState)
    (opts : List (List Nat × List Nat)) (a : List Nat)
    (hmc : q.isMC = true) (hopt : q.options = some opts) (hans : q.answer = some a)
    (ha : a ≠ []) (hca : q.correct_answer ≠ [])
    (hin : q.correct_answer ∈ opts.map (fun o => q.transform o.1))
    (hnin : q.transform a ∉ opts.map (fun o => q.transform o.1)) :
    validateResponse q =
      Except.ok (false, some
        { answer := a
          validKeys := opts.map (fun o => q.transform o.1)
          attemptsRemaining := q.response_settings.max_attempts - q.attempt_count }) := by
  have hce : q.correct_answer.isEmpty = false := isEmpty_false hca
  have hae : optFalsy (some a) = false := optFalsy_some_false ha
  have hsuper :
      (if optFalsy (some opts) then (validateBase q).map (fun _ => ()) else Except.ok ()) =
        Except.ok () := by
    cases hOF : optFalsy (some opts) with
    | false => simp [hOF]
    | true => simp [hOF, validateBase, hce, hans, hae, Except.map]
  simp [validateResponse, hmc, validateMC, hce, hae, hsuper,
    valid_possible_answers, pyIterOptions, hopt, hans, hin, hnin]

/-- The `whichAQuestion` state as `validate_response` sees it on the first
attempt after capturing the input `"C"`. -/
def cChoiceState : QState :=
  { whichAQuestion with answer := some (S "C"), attempt_count := 1 }

/-- C7 witness: input `"C"` against keys A and B on attempt 1 of 3 produces
the retry verdict with feedback listing the keys and 2 remaining attempts. -/
theorem C7_witness :
    validateResponse cChoiceState =
      Except.ok (false, some
        { answer := S "C", validKeys := [S "A", S "B"], attemptsRemaining := 2 }) :=
  C7_invalid_choice_takes_retry_path cChoiceState
    [(S "A", S "Answer A"), (S "B", S "Answer B")] (S "C")
    rfl rfl rfl (by decide) (by decide) (by decide) (by decide)

/-- The misauthored variant of `whichAQuestion` from the C4 claim: the correct
answer is the lowercase `"a"`, which normalizes (mode `title`) to the option
key `"A"`; shown at the moment `validate_response` runs on the valid captured
answer `"a"`. -/
def lowercaseCorrectQuestion : QState :=
  { whichAQuestion with correct_answer := S "a", answer := some (S "a"), attempt_count := 1 }

/-- C4 counterexample: the normalized correct answer `"a"` is among the
normalized option keys (it normalizes to `"A"`), yet `validate_response`
raises the configuration error anyway, because line 135 compares the raw
`correct_answer` against the normalized keys.  This refutes the claim that
validation raises exactly when the normalized correct answer is missing. -/
theorem C4_cex_normalized_match_still_raises :
    lowercaseCorrectQuestion.transform lowercaseCorrectQuestion.correct_answer ∈
      [S "A", S "B"] ∧
    valid_possible_answers lowercaseCorrectQuestion = Except.ok [S "A", S "B"] ∧
    validateResponse lowercaseCorrectQuestion =
      Except.error PyError.correctAnswerNotAvailable :=
  ⟨by decide, rfl, rfl⟩

/-- C4 (amended): for a choice question with a non-empty correct answer and a
non-empty captured answer, `validate_response` raises the
`Correct answer is not available` configuration error exactly when the RAW
(unnormalized) `correct_answer` is not among the normalized option keys; a
correct answer that matches only after normalization (such as `"a"` against
key `"A"` under mode `title`) is treated as misauthored and raises.  The
check still never silently accepts a raw mismatch. -/
theorem C4_config_error_iff_raw_correct_missing (q : QState)
    (opts : List (List Nat × List Nat)) (a : List Nat)
    (hmc : q.isMC = true) (hopt : q.options = some opts) (hans : q.answer = some a)
    (ha : a ≠ []) (hca : q.correct_answer ≠ []) :
    validateResponse q = Except.error PyError.correctAnswerNotAvailable ↔
      q.correct_answer ∉ opts.map (fun o => q.transform o.1) := by
  have hce : q.correct_answer.isEmpty = false := isEmpty_false hca
  have hae : optFalsy (some a) = false := optFalsy_some_false ha
  have hsuper :
      (if optFalsy (some opts) then (validateBase q).map (fun _ => ()) else Except.ok ()) =
        Except.ok () := by
    cases hOF : optFalsy (some opts) with
    | false => simp [hOF]
    | true => simp [hOF, validateBase, hce, hans, hae, Except.map]
  by_cases hin : q.correct_answer ∈ opts.map (fun o => q.transform o.1)
  · by_cases hnin : q.transform a ∈ opts.map (fun o => q.transform o.1)
    · simp [validateResponse, hmc, validateMC, hce, hae, hsuper,
        valid_possible_answers, pyIterOptions, hopt, hans, hin, hnin]
    · simp [validateResponse, hmc, validateMC, hce, hae, hsuper,
        valid_possible_answers, pyIterOptions, hopt, hans, hin, hnin]
  · simp [validateResponse, hmc, validateMC, hce, hae, hsuper,
      valid_possible_answers, pyIterOptions, hopt, hans, hin]

/-- A choice question whose raw correct answer `"Z"` is not among the option
keys at all. -/
def zCorrectQuestion : QState :=
  { whichAQuestion with correct_answer := S "Z", answer := some (S "A"), attempt_count := 1 }

/-- C4 witness: the amended criterion applied to `zCorrectQuestion`, whose raw
correct answer is missing from the normalized keys, yields the configuration
error. -/
theorem C4_witness :
    validateResponse zCorrectQuestion =
      Except.error PyError.correctAnswerNotAvailable :=
  (C4_config_error_iff_raw_correct_missing zCorrectQuestion
    [(S "A", S "Answer A"), (S "B", S "Answer B")] (S "A")
    rfl rfl rfl (by decide) (by decide)).mpr (by decide)

/-- Loop invariant of `qaGo`: an iteration only rewrites `answer` (to a
captured value) and `attempt_count` (by one); the counter never moves past
the fuel bound and reaches it exactly when the loop ends with an invalid
verdict; the final answer is the initial one or some captured input. -/
theorem qaGo_inv (fuel : Nat) :
    ∀ (q : QState) (v : Bool) (inputs : List (List Nat))
      (fb : List InvalidChoiceFeedback) (qf : QState) (vf : Bool)
      (restf : List (List Nat)) (fbf : List InvalidChoiceFeedback),
      qaGo fuel q v inputs fb = Except.ok (qf, vf, restf, fbf) →
      qf.question = q.question ∧
      qf.correct_answer = q.correct_answer ∧
      qf.transformation_name = q.transformation_name ∧
      qf.response_settings = q.response_settings ∧
      qf.options = q.options ∧
      qf.isMC = q.isMC ∧
      q.attempt_count ≤ qf.attempt_count ∧
      qf.attempt_count ≤ q.attempt_count + (fuel : Int) ∧
      (vf = false → qf.attempt_count = q.attempt_count + (fuel : Int)) ∧
      (qf.answer = q.answer ∨ ∃ a, qf.answer = some a) := by
  induction fuel with
  | zero =>
    intro q v inputs fb qf vf restf fbf h
    simp only [qaGo, Except.ok.injEq, Prod.mk.injEq] at h
    obtain ⟨rfl, rfl, rfl, rfl⟩ := h
    refine ⟨rfl, rfl, rfl, rfl, rfl, rfl, le_refl _, by omega, fun _ => by omega, Or.inl rfl⟩
  | succ n ih =>
    intro q v inputs fb qf vf restf fbf h
    simp only [qaGo] at h
    by_cases hv : v = true
    · rw [if_pos hv] at h
      simp only [Except.ok.injEq, Prod.mk.injEq] at h
      obtain ⟨rfl, rfl, rfl, rfl⟩ := h
      refine ⟨rfl, rfl, rfl, rfl, rfl, rfl, le_refl _, by omega, ?_, Or.inl rfl⟩
      intro hvf
      rw [hv] at hvf
      exact absurd hvf (by simp)
    · rw [if_neg hv] at h
      cases hp : promptAnswer q inputs with
      | error e => rw [hp] at h; exact absurd h (by simp)
      | ok pr =>
        obtain ⟨a, rest⟩ := pr
        rw [hp] at h
        dsimp only at h
        cases hval : validateResponse
            { q with answer := some a, attempt_count := q.attempt_count + 1 } with
        | error e => rw [hval] at h; exact absurd h (by simp)
        | ok vf2 =>
          obtain ⟨v2, f2⟩ := vf2
          rw [hval] at h
          obtain ⟨h1, h2, h3, h4, h5, h6, h7, h8, h9, h10⟩ := ih _ _ _ _ _ _ _ _ h
          refine ⟨h1, h2, h3, h4, h5, h6, ?_, ?_, ?_, ?_⟩
          · simp only [] at h7
            omega
          · simp only [] at h8
            push_cast
            omega
          · intro hvf
            have := h9 hvf
            simp only [] at this
            push_cast
            omega
          · rcases h10 with h10 | h10
            · exact Or.inr ⟨a, h10⟩
            · exact Or.inr h10

/-- What `handle_question_and_answer` guarantees whenever it returns normally
from a question that starts at attempt 0 with a positive attempt limit: the
settings are untouched, the final attempt count never exceeds the limit and
reaches it whenever the final verdict is invalid, the exhausted notice is
printed exactly on an invalid final verdict, and the final correctness flag
is the transformation-equality of the last captured answer against the
correct answer. -/
theorem handle_inv (q : QState) (qnum : Option Int) (inputs : List (List Nat))
    (r : QAOutput) (h0 : q.attempt_count = 0)
    (hmax : 1 ≤ q.response_settings.max_attempts)
    (h : handle_question_and_answer q inputs qnum = Except.ok r) :
    r.state.response_settings = q.response_settings ∧
    r.state.attempt_count ≤ q.response_settings.max_attempts ∧
    (r.is_valid = false →
      r.state.attempt_count = q.response_settings.max_attempts) ∧
    r.exhausted_notice = !r.is_valid ∧
    r.state.transformation_name = q.transformation_name ∧
    r.state.correct_answer = q.correct_answer ∧
    ∃ a, r.state.answer = some a ∧
      r.is_correct = decide (applyTransformation q.transformation_name a =
        applyTransformation q.transformation_name q.correct_answer) := by
  simp only [handle_question_and_answer] at h
  generalize hq0 : print_question_header q qnum = q0 at h
  have hq0c : q0.attempt_count = 0 := by
    rw [← hq0, print_question_header_attempt_count, h0]
  have hq0rs : q0.response_settings = q.response_settings := by
    rw [← hq0, print_question_header_response_settings]
  have hq0tn : q0.transformation_name = q.transformation_name := by
    rw [← hq0, print_question_header_transformation_name]
  have hq0ca : q0.correct_answer = q.correct_answer := by
    rw [← hq0, print_question_header_correct_answer]
  cases hp : promptAnswer q0 inputs with
  | error e => rw [hp] at h; exact absurd h (by simp)
  | ok pr =>
    obtain ⟨a0, rest⟩ := pr
    rw [hp] at h
    dsimp only at h
    cases hval : validateResponse { q0 with answer := some a0, attempt_count := q0.attempt_count + 1 } with
    | error e => rw [hval] at h; exact absurd h (by simp)
    | ok vf0 =>
      obtain ⟨v0, f0⟩ := vf0
      rw [hval] at h
      dsimp only at h
      cases hloop : qaGo (q0.response_settings.max_attempts - (q0.attempt_count + 1)).toNat { q0 with answer := some a0, attempt_count := q0.attempt_count + 1 } v0 rest f0.toList with
      | error e => rw [hloop] at h; exact absurd h (by simp)
      | ok out =>
        obtain ⟨qf, vf, restf, fbf⟩ := out
        rw [hloop] at h
        dsimp only at h
        cases hic : is_correct_answer qf with
        | error e => rw [hic] at h; exact absurd h (by simp)
        | ok c =>
          rw [hic] at h
          dsimp only at h
          simp only [Except.ok.injEq] at h
          subst h
          obtain ⟨g1, g2, g3, g4, g5, g6, g7, g8, g9, g10⟩ :=
            qaGo_inv _ _ _ _ _ _ _ _ _ hloop
          dsimp only at g1 g2 g3 g4 g5 g6 g7 g8 g9 g10
          rw [hq0c] at g7 g8 g9
          rw [hq0rs] at g4
          rw [hq0tn] at g3
          rw [hq0ca] at g2
          have hfuel :
              ((q0.response_settings.max_attempts - (0 + 1)).toNat : Int) =
                q.response_settings.max_attempts - 1 := by
            rw [hq0rs, Int.toNat_of_nonneg (by omega)]
            omega
          rw [hfuel] at g8 g9
          have hanswer : ∃ a, qf.answer = some a := by
            rcases g10 with g10 | g10
            · exact ⟨a0, g10⟩
            · exact g10
          obtain ⟨a1, ha1⟩ := hanswer
          have hcorrect : c = decide (applyTransformation q.transformation_name a1 =
              applyTransformation q.transformation_name q.correct_answer) := by
            unfold is_correct_answer at hic
            rw [ha1] at hic
            simp only [Except.ok.injEq] at hic
            rw [← hic]
            unfold QState.transform
            rw [g3, g2]
          refine ⟨g4, ?_, ?_, ?_, g3, g2, ⟨a1, ha1, hcorrect⟩⟩
          · dsimp only
            omega
          · intro hvf
            dsimp only at hvf
            have g9v := g9 hvf
            dsimp only
            omega
          · dsimp only
            rw [hq0rs]
            by_cases hvf : vf = false
            · have g9v := g9 hvf
              have hceq : qf.attempt_count = q.response_settings.max_attempts := by
                omega
              rw [hvf, hceq]
              simp
            · have hvt : vf = true := by
                cases vf
                · exact absurd rfl hvf
                · rfl
              rw [hvt]
              simp

/-- The terminal-state invariant of the ask/validate/retry loop: when
`handle_question_and_answer` returns normally, the attempt count is at most
`max_attempts`; an invalid final verdict (termination via exhaustion) forces
equality and the exhausted notice is printed exactly then.  A propagating
exception trivially satisfies the invariant (the loop did not terminate
normally). -/
def QAInvariant : Except PyError QAOutput → Prop
  | Except.error _ => True
  | Except.ok r =>
    r.state.attempt_count ≤ r.state.response_settings.max_attempts ∧
    (r.is_valid = false →
      r.state.attempt_count = r.state.response_settings.max_attempts) ∧
    r.exhausted_notice = !r.is_valid

/-- C3 (amended): for every question started fresh (attempt count 0) under a
positive attempt limit, after the loop terminates `attemptCount <=
maxAttempts` holds, and termination via exhaustion (a final failed
validation) implies `attemptCount == maxAttempts`; the converse implication
does not hold, since acceptance on the final attempt also reaches
`attemptCount == maxAttempts` (see the counterexample), so equality signals
exhaustion only together with the invalid final verdict. -/
theorem C3_attempt_count_invariant (q : QState) (qnum : Option Int)
    (inputs : List (List Nat)) (h0 : q.attempt_count = 0)
    (hmax : 1 ≤ q.response_settings.max_attempts) :
    QAInvariant (handle_question_and_answer q inputs qnum) := by
  cases h : handle_question_and_answer q inputs qnum with
  | error e => trivial
  | ok r =>
    obtain ⟨hrs, hle, heq, hnotice, -, -, -⟩ := handle_inv q qnum inputs r h0 hmax h
    refine ⟨?_, ?_, hnotice⟩
    · rw [hrs]
      exact hle
    · intro hv
      rw [hrs]
      exact heq hv

/-- C3 witness: the invariant instantiated on the concrete choice question
(maxAttempts 3, attempt count 0) with the single input `"a"`. -/
theorem C3_witness :
    QAInvariant (handle_question_and_answer whichAQuestion [S "a"] none) :=
  C3_attempt_count_invariant whichAQuestion none [S "a"] rfl (by decide)

/-- The gate acceptance criterion: whenever the gate question's loop returns
normally, `is_correct_answer` — the boolean `startup` returns — is true
exactly when the final captured answer normalizes (mode `title`) to `"Y"`,
the key of the "yes" option. -/
def GateOnlyYes : Except PyError QAOutput → Prop
  | Except.error _ => True
  | Except.ok r =>
    r.is_correct = true ↔ applyTransformation "title" (r.state.answer.getD []) = S "Y"

/-- C8: the startup gate returns exactly `is_correct_answer` of the gate
question, which is true only if the accepted (last captured) answer
normalizes to the "yes" option key `"Y"`; and end-to-end, answering the gate
with the `"N"` option key makes `main` skip `start_quiz` and the score report
entirely. -/
theorem C8_gate_only_yes_and_no_skips_quiz :
    quizMain [S "N"] =
      Except.ok { gate := false, ranQuiz := false, finalScore := none } ∧
    (∀ inputs, startup inputs =
      (handle_question_and_answer gateQuestion inputs none).map
        (fun r => (r.is_correct, r.rest))) ∧
    (∀ inputs, GateOnlyYes (handle_question_and_answer gateQuestion inputs none)) := by
  refine ⟨rfl, ?_, ?_⟩
  · intro inputs
    have hs : startup inputs =
        match handle_question_and_answer gateQuestion inputs none with
        | Except.error e => Except.error e
        | Except.ok r => Except.ok (r.is_correct, r.rest) := rfl
    rw [hs]
    cases handle_question_and_answer gateQuestion inputs none with
    | error e => rfl
    | ok r => rfl
  · intro inputs
    cases h : handle_question_and_answer gateQuestion inputs none with
    | error e => trivial
    | ok r =>
      obtain ⟨-, -, -, -, -, -, a, hans, hic⟩ :=
        handle_inv gateQuestion none inputs r rfl (by decide) h
      show r.is_correct = true ↔ applyTransformation "title" (r.state.answer.getD []) = S "Y"
      rw [hans, hic]
      simp only [Option.getD_some]
      constructor
      · intro hd
        have := of_decide_eq_true hd
        simpa using this
      · intro he
        apply decide_eq_true
        simpa using he

/-- C8 witness: the gate criterion at the concrete input `"Y"`, and the
end-to-end conjunct evaluated (it is hypothesis-free). -/
theorem C8_witness :
    GateOnlyYes (handle_question_and_answer gateQuestion [S "Y"] none) :=
  C8_gate_only_yes_and_no_skips_quiz.2.2 [S "Y"]
